import Mathlib

/-!
Verification development for `scripts/init.py` of the `gcp-kubernetes`
repository.

The script drives a set of external `git`/`ssh` subprocess invocations.
We model every subprocess invocation as a `Cmd` (argv plus optional working
directory) evaluated by an environment oracle `Env.exec : Cmd → SpawnResult`.
`SpawnResult.raised` models the Python situation in which
`asyncio.create_subprocess_exec`/`communicate` raises an exception (the only
failure the try/except blocks of the script can observe); `SpawnResult.ran`
models a subprocess that was spawned and awaited, carrying its exit code and
decoded stdout/stderr.  Each modelled method returns the list of subprocess
invocations it attempted (its trace, in order) together with its Python
return value.

Python string primitives used by the script (`str.strip`, `str.lower`,
substring membership via `in`) are modelled by structurally recursive
character-list functions so that all definitions evaluate by kernel
reduction.
-/

/-- Outcome of awaiting one subprocess: either the spawn/await raised an
exception, or the process ran to completion with an exit code and decoded
stdout / stderr. -/
inductive SpawnResult where
  | raised : SpawnResult
  | ran (exitCode : Nat) (stdout : String) (stderr : String) : SpawnResult
deriving DecidableEq, Repr

/-- A spawn that did not raise. -/
def SpawnResult.ok : SpawnResult → Bool
  | .raised => false
  | .ran _ _ _ => true

/-- One external subprocess invocation: argument vector and optional `cwd`. -/
structure Cmd where
  argv : List String
  cwd : Option String
deriving DecidableEq, Repr

/-- The external world as the script observes it: subprocess results, file
existence, and the current working directory of the invoking process. -/
structure Env where
  exec : Cmd → SpawnResult
  pathExists : String → Bool
  cwd : String

/-- One catalog entry.  The script reads only `repo["name"]`; the rest of the
JSON payload is opaque to it.  We keep one representative opaque field
(`github_default_branch`, present on every entry of the embedded catalog) to
be able to state that processing never depends on it. -/
structure RepoDescriptor where
  name : String
  github_default_branch : String
deriving DecidableEq, Repr

/-- The fields of `ProjectInitializer` set by `__init__` (the semaphore is
modelled separately by the admission transition system below). -/
structure ProjectInitializer where
  project_name : String
  repo_org : String
  repositories : List RepoDescriptor
  base_dir : String
  commit_message : Option String
  excluded_repos : List String
  remote_operation : Option String
  remote_name : Option String
  remote_url : Option String
deriving Repr

/-- Whether `pat` is a prefix of the character list. -/
def startsWithChars : List Char → List Char → Bool
  | [], _ => true
  | _ :: _, [] => false
  | p :: ps, c :: cs => (p == c) && startsWithChars ps cs

/-- Whether `pat` occurs as a contiguous sublist. -/
def hasSubChars (pat : List Char) : List Char → Bool
  | [] => pat.isEmpty
  | c :: rest => startsWithChars pat (c :: rest) || hasSubChars pat rest

/-- Python `str.strip()`: drop whitespace from both ends. -/
def pyStrip (s : String) : String :=
  ⟨((s.data.dropWhile Char.isWhitespace).reverse.dropWhile Char.isWhitespace).reverse⟩

/-- Python `str.lower()` (ASCII, which is all the script compares). -/
def pyLower (s : String) : String := ⟨s.data.map Char.toLower⟩

/-- Python `pat in hay` on strings. -/
def pyContains (hay pat : String) : Bool := hasSubChars pat.data hay.data

/-- Python truthiness of an optional string (`None` and `""` are falsy). -/
def pyTruthy : Option String → Bool
  | none => false
  | some s => !(s == "")

/-- The `ssh -T git@github.com` probe of `verify_git_ssh`. -/
def sshVerifyCmd : Cmd := ⟨["ssh", "-T", "git@github.com"], none⟩

/-- The `git remote get-url origin` query of `check_remote`. -/
def getUrlCmd (p : String) : Cmd := ⟨["git", "remote", "get-url", "origin"], some p⟩

/-- The `git fetch` step of `update_repository`. -/
def fetchCmd (p : String) : Cmd := ⟨["git", "fetch"], some p⟩

/-- The `git rev-parse --abbrev-ref HEAD` branch query. -/
def revParseCmd (p : String) : Cmd := ⟨["git", "rev-parse", "--abbrev-ref", "HEAD"], some p⟩

/-- The `git pull origin <branch>` step of `update_repository`. -/
def pullCmd (p b : String) : Cmd := ⟨["git", "pull", "origin", b], some p⟩

/-- The `git clone git@github.com:<org>/<name>.git <path>` invocation. -/
def cloneCmd (org n p : String) : Cmd :=
  ⟨["git", "clone", "git@github.com:" ++ org ++ "/" ++ n ++ ".git", p], none⟩

/-- The first attempt of `checkout_branch`: `git checkout <branch>`. -/
def checkoutCmd (p b : String) : Cmd := ⟨["git", "checkout", b], some p⟩

/-- The second attempt of `checkout_branch`: `git checkout -b <branch> origin/main`. -/
def checkoutCreateCmd (p b : String) : Cmd :=
  ⟨["git", "checkout", "-b", b, "origin/main"], some p⟩

/-- The `git add .` step of `commit_changes`. -/
def addAllCmd (p : String) : Cmd := ⟨["git", "add", "."], some p⟩

/-- The `git commit -m <msg> --allow-empty` step of `commit_changes`. -/
def commitCmd (p m : String) : Cmd := ⟨["git", "commit", "-m", m, "--allow-empty"], some p⟩

/-- The `git remote add <name> <url>` invocation of `add_remote`. -/
def remoteAddCmd (p n u : String) : Cmd := ⟨["git", "remote", "add", n, u], some p⟩

/-- The `git remote set-url <name> <url>` invocation of `update_remote`. -/
def remoteSetUrlCmd (p n u : String) : Cmd := ⟨["git", "remote", "set-url", n, u], some p⟩

/-- The `git remote remove <name>` invocation of `delete_remote`. -/
def remoteRemoveCmd (p n : String) : Cmd := ⟨["git", "remote", "remove", n], some p⟩

/-- `ProjectInitializer.verify_git_ssh` (init.py lines 27-39): run
`ssh -T git@github.com`; on success look for the GitHub success marker in
stderr (lower-cased); on exception return `False`. -/
def ProjectInitializer.verify_git_ssh (env : Env) : List Cmd × Bool :=
  match env.exec sshVerifyCmd with
  | .raised => ([sshVerifyCmd], false)
  | .ran _ _ stderr => ([sshVerifyCmd], pyContains (pyLower stderr) "successfully authenticated")

/-- `ProjectInitializer.check_remote` (lines 41-54): read the configured
`origin` URL and compare the stripped stdout with the expected URL; on
exception return `False`. -/
def ProjectInitializer.check_remote (env : Env) (repo_path expected_remote : String) :
    List Cmd × Bool :=
  match env.exec (getUrlCmd repo_path) with
  | .raised => ([getUrlCmd repo_path], false)
  | .ran _ stdout _ => ([getUrlCmd repo_path], pyStrip stdout == expected_remote)

/-- `ProjectInitializer.update_repository` (lines 56-89): `git fetch`, then
read the current branch, then `git pull origin <branch>`; returns `True`
whenever all three spawns complete (exit codes are never inspected), and
`False` as soon as a spawn raises. -/
def ProjectInitializer.update_repository (env : Env) (repo_path : String) :
    List Cmd × Bool :=
  match env.exec (fetchCmd repo_path) with
  | .raised => ([fetchCmd repo_path], false)
  | .ran _ _ _ =>
    match env.exec (revParseCmd repo_path) with
    | .raised => ([fetchCmd repo_path, revParseCmd repo_path], false)
    | .ran _ stdout _ =>
      match env.exec (pullCmd repo_path (pyStrip stdout)) with
      | .raised =>
        ([fetchCmd repo_path, revParseCmd repo_path, pullCmd repo_path (pyStrip stdout)], false)
      | .ran _ _ _ =>
        ([fetchCmd repo_path, revParseCmd repo_path, pullCmd repo_path (pyStrip stdout)], true)

/-- `ProjectInitializer.clone_repository` (lines 91-105): one `git clone` from
the constructed SSH URL; `True` when the spawn completes, `False` on
exception. -/
def ProjectInitializer.clone_repository (env : Env) (repo_org repo_name repo_path : String) :
    List Cmd × Bool :=
  match env.exec (cloneCmd repo_org repo_name repo_path) with
  | .raised => ([cloneCmd repo_org repo_name repo_path], false)
  | .ran _ _ _ => ([cloneCmd repo_org repo_name repo_path], true)

/-- `ProjectInitializer.get_current_branch` (lines 107-120): read
`git rev-parse --abbrev-ref HEAD`, strip it; on exception default to
`"main"`. -/
def ProjectInitializer.get_current_branch (env : Env) (repo_path : String) :
    List Cmd × String :=
  match env.exec (revParseCmd repo_path) with
  | .raised => ([revParseCmd repo_path], "main")
  | .ran _ stdout _ => ([revParseCmd repo_path], pyStrip stdout)

/-- `ProjectInitializer.checkout_branch` (lines 122-148): try
`git checkout <branch>`; if that spawn raises, try
`git checkout -b <branch> origin/main`; return the branch name unless both
spawns raise, in which case return `None`. -/
def ProjectInitializer.checkout_branch (env : Env) (repo_path branch_name : String) :
    List Cmd × Option String :=
  match env.exec (checkoutCmd repo_path branch_name) with
  | .ran _ _ _ => ([checkoutCmd repo_path branch_name], some branch_name)
  | .raised =>
    match env.exec (checkoutCreateCmd repo_path branch_name) with
    | .ran _ _ _ =>
      ([checkoutCmd repo_path branch_name, checkoutCreateCmd repo_path branch_name],
        some branch_name)
    | .raised =>
      ([checkoutCmd repo_path branch_name, checkoutCreateCmd repo_path branch_name], none)

/-- `ProjectInitializer.commit_changes` (lines 150-173): `git add .` then
`git commit -m <msg> --allow-empty`; `True` when both spawns complete. -/
def ProjectInitializer.commit_changes (env : Env) (repo_path commit_message : String) :
    List Cmd × Bool :=
  match env.exec (addAllCmd repo_path) with
  | .raised => ([addAllCmd repo_path], false)
  | .ran _ _ _ =>
    match env.exec (commitCmd repo_path commit_message) with
    | .raised => ([addAllCmd repo_path, commitCmd repo_path commit_message], false)
    | .ran _ _ _ => ([addAllCmd repo_path, commitCmd repo_path commit_message], true)

/-- `ProjectInitializer.add_remote` (lines 175-188). -/
def ProjectInitializer.add_remote (env : Env) (repo_path remote_name remote_url : String) :
    List Cmd × Bool :=
  match env.exec (remoteAddCmd repo_path remote_name remote_url) with
  | .raised => ([remoteAddCmd repo_path remote_name remote_url], false)
  | .ran _ _ _ => ([remoteAddCmd repo_path remote_name remote_url], true)

/-- `ProjectInitializer.update_remote` (lines 190-203). -/
def ProjectInitializer.update_remote (env : Env) (repo_path remote_name remote_url : String) :
    List Cmd × Bool :=
  match env.exec (remoteSetUrlCmd repo_path remote_name remote_url) with
  | .raised => ([remoteSetUrlCmd repo_path remote_name remote_url], false)
  | .ran _ _ _ => ([remoteSetUrlCmd repo_path remote_name remote_url], true)

/-- `ProjectInitializer.delete_remote` (lines 205-218). -/
def ProjectInitializer.delete_remote (env : Env) (repo_path remote_name : String) :
    List Cmd × Bool :=
  match env.exec (remoteRemoveCmd repo_path remote_name) with
  | .raised => ([remoteRemoveCmd repo_path remote_name], false)
  | .ran _ _ _ => ([remoteRemoveCmd repo_path remote_name], true)

/-- The clone-or-update portion of `ProjectInitializer.process_repository`
(lines 233-260), as the ordered trace of subprocess invocations it attempts.
If the local path exists and the `origin` remote matches the expected URL,
the script checks out the target branch and then runs `update_repository`
(fetch + pull); on a remote mismatch it only logs.  If the path does not
exist it clones and, when the clone spawn completed, checks out the target
branch. -/
def sync_block (env : Env) (self : ProjectInitializer)
    (repo_name repo_path expected_remote target_branch : String) : List Cmd :=
  if env.pathExists repo_path then
    if (ProjectInitializer.check_remote env repo_path expected_remote).2 then
      (ProjectInitializer.check_remote env repo_path expected_remote).1
        ++ (ProjectInitializer.checkout_branch env repo_path target_branch).1
        ++ (ProjectInitializer.update_repository env repo_path).1
    else (ProjectInitializer.check_remote env repo_path expected_remote).1
  else
    if (ProjectInitializer.clone_repository env self.repo_org repo_name repo_path).2 then
      (ProjectInitializer.clone_repository env self.repo_org repo_name repo_path).1
        ++ (ProjectInitializer.checkout_branch env repo_path target_branch).1
    else (ProjectInitializer.clone_repository env self.repo_org repo_name repo_path).1

/-- The remote URL actually used by the remote-management block (line 266):
`f"{self.remote_url}{repo_name}"` when `self.remote_url` is truthy, else
`None`. -/
def effective_remote_url (remote_url : Option String) (repo_name : String) : Option String :=
  if pyTruthy remote_url then some (remote_url.getD "" ++ repo_name) else none

/-- The remote-management portion of `process_repository` (lines 262-293), as
its trace.  The block runs only when a remote operation was requested and the
repository is not excluded; `add`/`update` are attempted only when both the
remote name and the effective URL are truthy, `delete` only when the remote
name is truthy; otherwise only a validation message is printed and nothing is
attempted. -/
def remote_block (env : Env) (self : ProjectInitializer) (repo_name repo_path : String) :
    List Cmd :=
  if pyTruthy self.remote_operation && !(self.excluded_repos.contains repo_name) then
    if self.remote_operation == some "add" then
      if pyTruthy self.remote_name && pyTruthy (effective_remote_url self.remote_url repo_name) then
        (ProjectInitializer.add_remote env repo_path (self.remote_name.getD "")
          ((effective_remote_url self.remote_url repo_name).getD "")).1
      else []
    else if self.remote_operation == some "update" then
      if pyTruthy self.remote_name && pyTruthy (effective_remote_url self.remote_url repo_name) then
        (ProjectInitializer.update_remote env repo_path (self.remote_name.getD "")
          ((effective_remote_url self.remote_url repo_name).getD "")).1
      else []
    else if self.remote_operation == some "delete" then
      if pyTruthy self.remote_name then
        (ProjectInitializer.delete_remote env repo_path (self.remote_name.getD "")).1
      else []
    else []
  else []

/-- The commit portion of `process_repository` (lines 295-301), as its trace:
runs only when a commit message was supplied and the repository is not
excluded. -/
def commit_block (env : Env) (self : ProjectInitializer) (repo_name repo_path : String) :
    List Cmd :=
  if pyTruthy self.commit_message && !(self.excluded_repos.contains repo_name) then
    (ProjectInitializer.commit_changes env repo_path (self.commit_message.getD "")).1
  else []

/-- `ProjectInitializer.process_repository` (lines 220-301), as the ordered
trace of subprocess invocations the reconciliation of one repository
attempts.  The target branch is read from the current working directory of
the invoking process (`os.getcwd()`), then the clone-or-update block, the
remote-management block and the commit block run in that order.  (The
`async with self.semaphore` admission wrapper is modelled by the transition
system `AdmissionStep` below.) -/
def ProjectInitializer.process_repository (env : Env) (self : ProjectInitializer)
    (repo : RepoDescriptor) : List Cmd :=
  (ProjectInitializer.get_current_branch env env.cwd).1
    ++ sync_block env self repo.name (self.base_dir ++ "/" ++ repo.name)
        ("git@github.com:" ++ self.repo_org ++ "/" ++ repo.name ++ ".git")
        (ProjectInitializer.get_current_branch env env.cwd).2
    ++ remote_block env self repo.name (self.base_dir ++ "/" ++ repo.name)
    ++ commit_block env self repo.name (self.base_dir ++ "/" ++ repo.name)

/-- Result of `ProjectInitializer.run` (lines 303-323): either the process
exits early through `sys.exit(1)` because `verify_git_ssh` returned `False`,
or all repositories are processed and `main` returns normally (process exit
status 0).  `completed` carries the per-repository traces. -/
inductive RunResult where
  | aborted (exitCode : Nat) : RunResult
  | completed (traces : List (List Cmd)) : RunResult
deriving DecidableEq, Repr

/-- `ProjectInitializer.run` (lines 303-323): verify SSH access once; on
failure `sys.exit(1)` before any repository is processed; on success process
every repository of the catalog (the `asyncio.gather` fan-out) and finish
normally. -/
def ProjectInitializer.run (env : Env) (self : ProjectInitializer) : RunResult :=
  if (ProjectInitializer.verify_git_ssh env).2 then
    .completed (self.repositories.map (ProjectInitializer.process_repository env self))
  else
    .aborted 1

/-- The process exit status corresponding to a `RunResult`: the `sys.exit`
code on abort, 0 on normal completion of `main`. -/
def RunResult.exitStatus : RunResult → Nat
  | .aborted c => c
  | .completed _ => 0

/-- How many repository reconciliations a `RunResult` attempted. -/
def RunResult.reconciliationsAttempted : RunResult → Nat
  | .aborted _ => 0
  | .completed ts => ts.length

/-- The semaphore capacity created in `run` (line 305:
`asyncio.Semaphore(5)`). -/
def maxParallel : Nat := 5

/-- Admission phase of one `process_repository` task: it is waiting for the
semaphore, holding a slot and running, or finished (having released its slot,
`ok` recording whether its body succeeded or failed). -/
inductive Phase where
  | waiting : Phase
  | running : Phase
  | done (ok : Bool) : Phase
deriving DecidableEq, Repr

/-- Number of tasks currently holding an admission slot. -/
def activeCount (ts : List Phase) : Nat := ts.countP (fun ph => ph == Phase.running)

/-- Interleaving semantics of the `async with self.semaphore` wrapper of
`process_repository`: a waiting task may acquire a slot and start only when
fewer than `cap` tasks are running, and a running task releases its slot when
it finishes, whether its body succeeded or failed (the `async with` block
releases on every exit path). -/
inductive AdmissionStep (cap : Nat) : List Phase → List Phase → Prop where
  | start (ts : List Phase) (i : Nat) (h : ts.get? i = some Phase.waiting)
      (hc : activeCount ts < cap) : AdmissionStep cap ts (ts.set i Phase.running)
  | finish (ts : List Phase) (i : Nat) (ok : Bool) (h : ts.get? i = some Phase.running) :
      AdmissionStep cap ts (ts.set i (Phase.done ok))

/-- States reachable by interleaving `n` reconciliation tasks, all initially
waiting (the `asyncio.gather` of line 321 submits every task at once). -/
def AdmissionReachable (cap n : Nat) (ts : List Phase) : Prop :=
  Relation.ReflTransGen (AdmissionStep cap) (List.replicate n Phase.waiting) ts

/-- A Python value passed as the `repositories` argument of `__init__`:
either a JSON string or an already-parsed list (the shape `main` embeds). -/
inductive PyValue where
  | str (s : String) : PyValue
  | list (xs : List RepoDescriptor) : PyValue

/-- The error message `json.loads` produces on a `list` argument. -/
def jsonTypeErrorMsg : String :=
  "TypeError: the JSON object must be str, bytes or bytearray, not list"

/-- `json.loads` as applied on line 18, restricted to the two shapes that can
reach it here: on a string it defers to a JSON parser (abstracted as the
`parse` argument); on an already-parsed list it raises a `TypeError`. -/
def json_loads (parse : String → Except String (List RepoDescriptor)) :
    PyValue → Except String (List RepoDescriptor)
  | .str s => parse s
  | .list _ => .error jsonTypeErrorMsg

/-- `ProjectInitializer.__init__` (lines 15-25): stores the arguments, after
deserialising `repositories` with `json.loads`; an exception there propagates
out of the constructor.  `resolved_parent` stands for `Path("..").resolve()`.
`.error` models the constructor raising. -/
def ProjectInitializer.mkInit (parse : String → Except String (List RepoDescriptor))
    (project_name repo_org : String) (repositories : PyValue) (resolved_parent : String)
    (commit_message : Option String) (excluded_repos : List String)
    (remote_operation remote_name remote_url : Option String) :
    Except String ProjectInitializer :=
  match json_loads parse repositories with
  | .error e => .error e
  | .ok repos =>
    .ok ⟨project_name, repo_org, repos, resolved_parent, commit_message, excluded_repos,
      remote_operation, remote_name, remote_url⟩

/-- The repository catalog embedded in `main` (line 342), reduced to the
fields the core reads plus the representative opaque field: it is a Python
list value, not a JSON string. -/
def mainRepositories : List RepoDescriptor :=
  [⟨"terraform-gcp-compute", "main"⟩,
   ⟨"terraform-gcp-networking", "main"⟩,
   ⟨"terraform-gcp-storage", "main"⟩,
   ⟨"terraform-gcp-monitoring", "main"⟩,
   ⟨"terraform-gcp-security", "main"⟩,
   ⟨"gcp-deployment", "main"⟩]

/-- Command predicates used to state trace properties. -/
def isCheckoutCmd (c : Cmd) : Bool := c.argv.take 2 == ["git", "checkout"]

/-- A `git fetch` invocation. -/
def isFetchCmd (c : Cmd) : Bool := c.argv.take 2 == ["git", "fetch"]

/-- A remote-mutating invocation: `git remote add/set-url/remove`
(`git remote get-url` is a read, not a mutation). -/
def isRemoteMutationCmd (c : Cmd) : Bool :=
  c.argv.take 3 == ["git", "remote", "add"] ||
  c.argv.take 3 == ["git", "remote", "set-url"] ||
  c.argv.take 3 == ["git", "remote", "remove"]

/-- A `git commit` invocation. -/
def isCommitCmd (c : Cmd) : Bool := c.argv.take 2 == ["git", "commit"]

/-- Index of the first command of a trace satisfying a predicate. -/
def firstIdx (p : Cmd → Bool) : List Cmd → Option Nat
  | [] => none
  | c :: rest => if p c then some 0 else (firstIdx p rest).map (· + 1)

/-- The ordering stated by the spec for a present-and-matching repository: the
first `git fetch` of the trace comes strictly before the first checkout
attempt. -/
def fetchBeforeCheckout (t : List Cmd) : Bool :=
  match firstIdx isFetchCmd t, firstIdx isCheckoutCmd t with
  | some i, some j => decide (i < j)
  | _, _ => false

/-- Concrete environment for evaluation: every spawn completes; the `origin`
query on `/w/r` answers the expected URL for organisation `Org`, every other
command answers `main`. -/
def envMatch : Env :=
  ⟨fun c => if c = getUrlCmd "/w/r" then .ran 0 "git@github.com:Org/r.git\n" ""
            else .ran 0 "main\n" "successfully authenticated ok",
   fun _ => true, "/cw"⟩

/-- Concrete initializer with no optional step requested. -/
def selfPlain : ProjectInitializer :=
  ⟨"gcp-kubernetes", "Org", [⟨"r", "main"⟩], "/w", none, [], none, none, none⟩

/-- Concrete repository descriptor. -/
def repoR : RepoDescriptor := ⟨"r", "main"⟩

/-- Concrete initializer with every optional step requested and `r`
excluded. -/
def selfExcluded : ProjectInitializer :=
  ⟨"gcp-kubernetes", "Org", [⟨"r", "main"⟩], "/w", some "msg", ["r"], some "add",
   some "nm", some "base/"⟩

/-- Concrete initializer requesting `add` with a remote name but no URL. -/
def selfAddNoUrl : ProjectInitializer :=
  ⟨"gcp-kubernetes", "Org", [⟨"r", "main"⟩], "/w", none, [], some "add", some "nm", none⟩

/-- Concrete initializer requesting `add` with both fields present. -/
def selfAddFull : ProjectInitializer :=
  ⟨"gcp-kubernetes", "Org", [⟨"r", "main"⟩], "/w", none, [], some "add", some "nm",
   some "base/"⟩

/-- Environment in which the SSH probe reports failure and everything else
completes. -/
def envVerifyFail : Env :=
  ⟨fun c => if c = sshVerifyCmd then .ran 255 "" "Permission denied (publickey)."
            else .ran 0 "main\n" "",
   fun _ => true, "/cw"⟩

/-- Environment in which the first checkout attempt raises and every other
spawn completes. -/
def envCheckoutRaises : Env :=
  ⟨fun c => if c.argv.take 2 == ["git", "checkout"] && !(c.argv.take 3 == ["git", "checkout", "-b"])
            then .raised else .ran 0 "main\n" "successfully authenticated ok",
   fun _ => true, "/cw"⟩

@[simp] theorem isCheckoutCmd_revParse (p : String) : isCheckoutCmd (revParseCmd p) = false := rfl

@[simp] theorem isCheckoutCmd_getUrl (p : String) : isCheckoutCmd (getUrlCmd p) = false := rfl

@[simp] theorem isCheckoutCmd_fetch (p : String) : isCheckoutCmd (fetchCmd p) = false := rfl

@[simp] theorem isCheckoutCmd_pull (p b : String) : isCheckoutCmd (pullCmd p b) = false := rfl

@[simp] theorem isCheckoutCmd_checkout (p b : String) : isCheckoutCmd (checkoutCmd p b) = true := rfl

@[simp] theorem isCheckoutCmd_checkoutCreate (p b : String) :
    isCheckoutCmd (checkoutCreateCmd p b) = true := rfl

@[simp] theorem isCheckoutCmd_addAll (p : String) : isCheckoutCmd (addAllCmd p) = false := rfl

@[simp] theorem isCheckoutCmd_commit (p m : String) : isCheckoutCmd (commitCmd p m) = false := rfl

@[simp] theorem isCheckoutCmd_remoteAdd (p n u : String) :
    isCheckoutCmd (remoteAddCmd p n u) = false := rfl

@[simp] theorem isCheckoutCmd_remoteSetUrl (p n u : String) :
    isCheckoutCmd (remoteSetUrlCmd p n u) = false := rfl

@[simp] theorem isCheckoutCmd_remoteRemove (p n : String) :
    isCheckoutCmd (remoteRemoveCmd p n) = false := rfl

@[simp] theorem isFetchCmd_revParse (p : String) : isFetchCmd (revParseCmd p) = false := rfl

@[simp] theorem isFetchCmd_getUrl (p : String) : isFetchCmd (getUrlCmd p) = false := rfl

@[simp] theorem isFetchCmd_fetch (p : String) : isFetchCmd (fetchCmd p) = true := rfl

@[simp] theorem isFetchCmd_pull (p b : String) : isFetchCmd (pullCmd p b) = false := rfl

@[simp] theorem isFetchCmd_checkout (p b : String) : isFetchCmd (checkoutCmd p b) = false := rfl

@[simp] theorem isFetchCmd_checkoutCreate (p b : String) :
    isFetchCmd (checkoutCreateCmd p b) = false := rfl

@[simp] theorem isFetchCmd_addAll (p : String) : isFetchCmd (addAllCmd p) = false := rfl

@[simp] theorem isFetchCmd_commit (p m : String) : isFetchCmd (commitCmd p m) = false := rfl

@[simp] theorem isFetchCmd_remoteAdd (p n u : String) : isFetchCmd (remoteAddCmd p n u) = false := rfl

@[simp] theorem isFetchCmd_remoteSetUrl (p n u : String) :
    isFetchCmd (remoteSetUrlCmd p n u) = false := rfl

@[simp] theorem isFetchCmd_remoteRemove (p n : String) :
    isFetchCmd (remoteRemoveCmd p n) = false := rfl

@[simp] theorem isRemoteMutationCmd_revParse (p : String) :
    isRemoteMutationCmd (revParseCmd p) = false := rfl

@[simp] theorem isRemoteMutationCmd_getUrl (p : String) :
    isRemoteMutationCmd (getUrlCmd p) = false := rfl

@[simp] theorem isRemoteMutationCmd_fetch (p : String) :
    isRemoteMutationCmd (fetchCmd p) = false := rfl

@[simp] theorem isRemoteMutationCmd_pull (p b : String) :
    isRemoteMutationCmd (pullCmd p b) = false := rfl

@[simp] theorem isRemoteMutationCmd_checkout (p b : String) :
    isRemoteMutationCmd (checkoutCmd p b) = false := rfl

@[simp] theorem isRemoteMutationCmd_checkoutCreate (p b : String) :
    isRemoteMutationCmd (checkoutCreateCmd p b) = false := rfl

@[simp] theorem isRemoteMutationCmd_clone (o n p : String) :
    isRemoteMutationCmd (cloneCmd o n p) = false := rfl

@[simp] theorem isRemoteMutationCmd_addAll (p : String) :
    isRemoteMutationCmd (addAllCmd p) = false := rfl

@[simp] theorem isRemoteMutationCmd_commit (p m : String) :
    isRemoteMutationCmd (commitCmd p m) = false := rfl

@[simp] theorem isRemoteMutationCmd_remoteAdd (p n u : String) :
    isRemoteMutationCmd (remoteAddCmd p n u) = true := rfl

@[simp] theorem isRemoteMutationCmd_remoteSetUrl (p n u : String) :
    isRemoteMutationCmd (remoteSetUrlCmd p n u) = true := rfl

@[simp] theorem isRemoteMutationCmd_remoteRemove (p n : String) :
    isRemoteMutationCmd (remoteRemoveCmd p n) = true := rfl

@[simp] theorem isCommitCmd_revParse (p : String) : isCommitCmd (revParseCmd p) = false := rfl

@[simp] theorem isCommitCmd_getUrl (p : String) : isCommitCmd (getUrlCmd p) = false := rfl

@[simp] theorem isCommitCmd_fetch (p : String) : isCommitCmd (fetchCmd p) = false := rfl

@[simp] theorem isCommitCmd_pull (p b : String) : isCommitCmd (pullCmd p b) = false := rfl

@[simp] theorem isCommitCmd_checkout (p b : String) : isCommitCmd (checkoutCmd p b) = false := rfl

@[simp] theorem isCommitCmd_checkoutCreate (p b : String) :
    isCommitCmd (checkoutCreateCmd p b) = false := rfl

@[simp] theorem isCommitCmd_clone (o n p : String) : isCommitCmd (cloneCmd o n p) = false := rfl

@[simp] theorem isCommitCmd_addAll (p : String) : isCommitCmd (addAllCmd p) = false := rfl

@[simp] theorem isCommitCmd_commit (p m : String) : isCommitCmd (commitCmd p m) = true := rfl

@[simp] theorem isCommitCmd_remoteAdd (p n u : String) :
    isCommitCmd (remoteAddCmd p n u) = false := rfl

@[simp] theorem isCommitCmd_remoteSetUrl (p n u : String) :
    isCommitCmd (remoteSetUrlCmd p n u) = false := rfl

@[simp] theorem isCommitCmd_remoteRemove (p n : String) :
    isCommitCmd (remoteRemoveCmd p n) = false := rfl

@[simp] theorem isCheckoutCmd_clone (o n p : String) : isCheckoutCmd (cloneCmd o n p) = false := rfl

@[simp] theorem isFetchCmd_clone (o n p : String) : isFetchCmd (cloneCmd o n p) = false := rfl

theorem check_remote_trace (env : Env) (p e : String) :
    (ProjectInitializer.check_remote env p e).1 = [getUrlCmd p] := by
  unfold ProjectInitializer.check_remote
  cases env.exec (getUrlCmd p) <;> rfl

theorem get_current_branch_trace (env : Env) (p : String) :
    (ProjectInitializer.get_current_branch env p).1 = [revParseCmd p] := by
  unfold ProjectInitializer.get_current_branch
  cases env.exec (revParseCmd p) <;> rfl

theorem clone_repository_trace (env : Env) (o n p : String) :
    (ProjectInitializer.clone_repository env o n p).1 = [cloneCmd o n p] := by
  unfold ProjectInitializer.clone_repository
  cases env.exec (cloneCmd o n p) <;> rfl

theorem checkout_branch_trace_cases (env : Env) (p b : String) :
    (ProjectInitializer.checkout_branch env p b).1 = [checkoutCmd p b] ∨
    (ProjectInitializer.checkout_branch env p b).1 = [checkoutCmd p b, checkoutCreateCmd p b] := by
  unfold ProjectInitializer.checkout_branch
  cases env.exec (checkoutCmd p b) with
  | raised => cases env.exec (checkoutCreateCmd p b) <;> simp
  | ran a b c => simp

theorem update_repository_trace_shape (env : Env) (p : String) :
    ∃ t, (ProjectInitializer.update_repository env p).1 = fetchCmd p :: t ∧
      ∀ c ∈ t, c = revParseCmd p ∨ ∃ b, c = pullCmd p b := by
  unfold ProjectInitializer.update_repository
  cases hf : env.exec (fetchCmd p) with
  | raised => exact ⟨[], rfl, by simp⟩
  | ran a s e =>
    dsimp only
    cases hb : env.exec (revParseCmd p) with
    | raised =>
      refine ⟨[revParseCmd p], rfl, ?_⟩
      intro c hc
      simp at hc
      exact Or.inl hc
    | ran a2 s2 e2 =>
      dsimp only
      cases hp : env.exec (pullCmd p (pyStrip s2)) with
      | raised =>
        refine ⟨[revParseCmd p, pullCmd p (pyStrip s2)], rfl, ?_⟩
        intro c hc
        simp at hc
        rcases hc with h | h
        · exact Or.inl h
        · exact Or.inr ⟨pyStrip s2, h⟩
      | ran a3 s3 e3 =>
        refine ⟨[revParseCmd p, pullCmd p (pyStrip s2)], rfl, ?_⟩
        intro c hc
        simp at hc
        rcases hc with h | h
        · exact Or.inl h
        · exact Or.inr ⟨pyStrip s2, h⟩

theorem mem_checkout_branch_trace {env : Env} {p b : String} {c : Cmd}
    (h : c ∈ (ProjectInitializer.checkout_branch env p b).1) :
    c = checkoutCmd p b ∨ c = checkoutCreateCmd p b := by
  rcases checkout_branch_trace_cases env p b with ht | ht <;> rw [ht] at h
  · simp at h
    exact Or.inl h
  · simpa using h

theorem mem_update_repository_trace {env : Env} {p : String} {c : Cmd}
    (h : c ∈ (ProjectInitializer.update_repository env p).1) :
    c = fetchCmd p ∨ c = revParseCmd p ∨ ∃ b, c = pullCmd p b := by
  obtain ⟨t, ht, hmem⟩ := update_repository_trace_shape env p
  rw [ht, List.mem_cons] at h
  rcases h with h | h
  · exact Or.inl h
  · exact Or.inr (hmem c h)

theorem commit_changes_trace_cases (env : Env) (p m : String) :
    (ProjectInitializer.commit_changes env p m).1 = [addAllCmd p] ∨
    (ProjectInitializer.commit_changes env p m).1 = [addAllCmd p, commitCmd p m] := by
  unfold ProjectInitializer.commit_changes
  cases env.exec (addAllCmd p) with
  | raised => simp
  | ran a s e => cases env.exec (commitCmd p m) <;> simp

theorem mem_commit_changes_trace {env : Env} {p m : String} {c : Cmd}
    (h : c ∈ (ProjectInitializer.commit_changes env p m).1) :
    c = addAllCmd p ∨ c = commitCmd p m := by
  rcases commit_changes_trace_cases env p m with ht | ht <;> rw [ht] at h
  · simp at h
    exact Or.inl h
  · simpa using h

theorem add_remote_trace (env : Env) (p n u : String) :
    (ProjectInitializer.add_remote env p n u).1 = [remoteAddCmd p n u] := by
  unfold ProjectInitializer.add_remote
  cases env.exec (remoteAddCmd p n u) <;> rfl

theorem update_remote_trace (env : Env) (p n u : String) :
    (ProjectInitializer.update_remote env p n u).1 = [remoteSetUrlCmd p n u] := by
  unfold ProjectInitializer.update_remote
  cases env.exec (remoteSetUrlCmd p n u) <;> rfl

theorem delete_remote_trace (env : Env) (p n : String) :
    (ProjectInitializer.delete_remote env p n).1 = [remoteRemoveCmd p n] := by
  unfold ProjectInitializer.delete_remote
  cases env.exec (remoteRemoveCmd p n) <;> rfl

theorem mem_sync_block {env : Env} {self : ProjectInitializer}
    {repo_name repo_path expected_remote target_branch : String} {c : Cmd}
    (h : c ∈ sync_block env self repo_name repo_path expected_remote target_branch) :
    c = getUrlCmd repo_path ∨ c = checkoutCmd repo_path target_branch ∨
    c = checkoutCreateCmd repo_path target_branch ∨ c = fetchCmd repo_path ∨
    c = revParseCmd repo_path ∨ (∃ b, c = pullCmd repo_path b) ∨
    c = cloneCmd self.repo_org repo_name repo_path := by
  unfold sync_block at h
  by_cases hex : env.pathExists repo_path
  · rw [if_pos hex] at h
    by_cases hchk : (ProjectInitializer.check_remote env repo_path expected_remote).2 = true
    · rw [if_pos hchk] at h
      rw [check_remote_trace] at h
      rcases List.mem_append.1 h with h1 | h1
      · rcases List.mem_append.1 h1 with h2 | h2
        · exact Or.inl (by simpa using h2)
        · rcases mem_checkout_branch_trace h2 with h3 | h3
          · exact Or.inr (Or.inl h3)
          · exact Or.inr (Or.inr (Or.inl h3))
      · rcases mem_update_repository_trace h1 with h3 | h3 | h3
        · exact Or.inr (Or.inr (Or.inr (Or.inl h3)))
        · exact Or.inr (Or.inr (Or.inr (Or.inr (Or.inl h3))))
        · exact Or.inr (Or.inr (Or.inr (Or.inr (Or.inr (Or.inl h3)))))
    · rw [if_neg hchk] at h
      rw [check_remote_trace] at h
      exact Or.inl (by simpa using h)
  · rw [if_neg hex] at h
    by_cases hcl : (ProjectInitializer.clone_repository env self.repo_org repo_name repo_path).2 = true
    · rw [if_pos hcl] at h
      rw [clone_repository_trace] at h
      rcases List.mem_append.1 h with h1 | h1
      · exact Or.inr (Or.inr (Or.inr (Or.inr (Or.inr (Or.inr (by simpa using h1))))))
      · rcases mem_checkout_branch_trace h1 with h3 | h3
        · exact Or.inr (Or.inl h3)
        · exact Or.inr (Or.inr (Or.inl h3))
    · rw [if_neg hcl] at h
      rw [clone_repository_trace] at h
      exact Or.inr (Or.inr (Or.inr (Or.inr (Or.inr (Or.inr (by simpa using h))))))

theorem append_ne_empty_left {s : String} (n : String) (h : ¬s = "") : ¬s ++ n = "" := by
  intro hc
  apply h
  have hd := congrArg String.data hc
  rw [String.data_append] at hd
  have : s.data = [] := (List.append_eq_nil.1 hd).1
  exact String.ext this

theorem pyTruthy_effective (u : Option String) (n : String) :
    pyTruthy (effective_remote_url u n) = pyTruthy u := by
  cases u with
  | none => rfl
  | some s =>
    by_cases hs : s = ""
    · subst hs
      rfl
    · have h1 : pyTruthy (some s) = true := by simp [pyTruthy, hs]
      rw [h1]
      unfold effective_remote_url
      rw [h1, if_pos rfl]
      simp [pyTruthy, Option.getD]
      exact append_ne_empty_left n hs

theorem remote_block_of_excluded {env : Env} {self : ProjectInitializer}
    {repo_name : String} (repo_path : String)
    (h : self.excluded_repos.contains repo_name = true) :
    remote_block env self repo_name repo_path = [] := by
  unfold remote_block
  rw [h]
  simp

theorem commit_block_of_excluded {env : Env} {self : ProjectInitializer}
    {repo_name : String} (repo_path : String)
    (h : self.excluded_repos.contains repo_name = true) :
    commit_block env self repo_name repo_path = [] := by
  unfold commit_block
  rw [h]
  simp

theorem mem_commit_block {env : Env} {self : ProjectInitializer}
    {repo_name repo_path : String} {c : Cmd}
    (h : c ∈ commit_block env self repo_name repo_path) :
    c = addAllCmd repo_path ∨ ∃ m, c = commitCmd repo_path m := by
  unfold commit_block at h
  by_cases hb : pyTruthy self.commit_message && !(self.excluded_repos.contains repo_name)
  · rw [if_pos hb] at h
    rcases mem_commit_changes_trace h with h1 | h1
    · exact Or.inl h1
    · exact Or.inr ⟨_, h1⟩
  · rw [if_neg hb] at h
    cases h

theorem remote_block_add {env : Env} {self : ProjectInitializer}
    {repo_name : String} (repo_path : String)
    (hex : self.excluded_repos.contains repo_name = false)
    (hop : self.remote_operation = some "add") :
    remote_block env self repo_name repo_path =
      if pyTruthy self.remote_name && pyTruthy self.remote_url then
        [remoteAddCmd repo_path (self.remote_name.getD "")
          ((effective_remote_url self.remote_url repo_name).getD "")]
      else [] := by
  unfold remote_block
  rw [hop, hex]
  rw [pyTruthy_effective]
  simp [pyTruthy, add_remote_trace]

theorem remote_block_update {env : Env} {self : ProjectInitializer}
    {repo_name : String} (repo_path : String)
    (hex : self.excluded_repos.contains repo_name = false)
    (hop : self.remote_operation = some "update") :
    remote_block env self repo_name repo_path =
      if pyTruthy self.remote_name && pyTruthy self.remote_url then
        [remoteSetUrlCmd repo_path (self.remote_name.getD "")
          ((effective_remote_url self.remote_url repo_name).getD "")]
      else [] := by
  unfold remote_block
  rw [hop, hex]
  rw [pyTruthy_effective]
  simp [pyTruthy, update_remote_trace]

theorem remote_block_delete {env : Env} {self : ProjectInitializer}
    {repo_name : String} (repo_path : String)
    (hex : self.excluded_repos.contains repo_name = false)
    (hop : self.remote_operation = some "delete") :
    remote_block env self repo_name repo_path =
      if pyTruthy self.remote_name then
        [remoteRemoveCmd repo_path (self.remote_name.getD "")]
      else [] := by
  unfold remote_block
  rw [hop, hex]
  simp [pyTruthy, delete_remote_trace]

theorem firstIdx_cons_pos {p : Cmd → Bool} {c : Cmd} (l : List Cmd) (h : p c = true) :
    firstIdx p (c :: l) = some 0 := by
  have he : firstIdx p (c :: l) = if p c then some 0 else (firstIdx p l).map (· + 1) := rfl
  rw [he, h]
  simp

theorem firstIdx_cons_neg {p : Cmd → Bool} {c : Cmd} (l : List Cmd) (h : p c = false) :
    firstIdx p (c :: l) = (firstIdx p l).map (· + 1) := by
  have he : firstIdx p (c :: l) = if p c then some 0 else (firstIdx p l).map (· + 1) := rfl
  rw [he, h]
  simp

theorem firstIdx_append_none {p : Cmd → Bool} {l₁ : List Cmd} (l₂ : List Cmd)
    (h : ∀ c ∈ l₁, p c = false) :
    firstIdx p (l₁ ++ l₂) = (firstIdx p l₂).map (· + l₁.length) := by
  induction l₁ with
  | nil => simp
  | cons a t ih =>
    rw [List.cons_append, firstIdx_cons_neg _ (h a (List.mem_cons_self a t))]
    rw [ih (fun c hc => h c (List.mem_cons_of_mem a hc))]
    cases firstIdx p l₂ with
    | none => rfl
    | some i =>
      simp [Option.map_map]
      ring

theorem countP_set_of_get {α : Type} {l : List α} {i : Nat} {a : α} (p : α → Bool) (b : α)
    (h : l.get? i = some a) :
    (l.set i b).countP p =
      l.countP p + (if p b then 1 else 0) - (if p a then 1 else 0) := by
  induction l generalizing i with
  | nil => cases h
  | cons x xs ih =>
    cases i with
    | zero =>
      have hx : x = a := by simpa using h
      subst hx
      simp only [List.set, List.countP_cons]
      split_ifs <;> omega
    | succ j =>
      have hj : xs.get? j = some a := by simpa using h
      simp only [List.set, List.countP_cons]
      rw [ih hj]
      have hge : (if p a then 1 else 0) ≤ xs.countP p := by
        by_cases hpa : p a = true
        · rw [if_pos hpa]
          exact List.countP_pos_iff.2 ⟨a, List.get?_mem hj, hpa⟩
        · simp [hpa]
      split_ifs at hge ⊢ <;> omega

theorem activeCount_replicate (n : Nat) :
    activeCount (List.replicate n Phase.waiting) = 0 := by
  induction n with
  | zero => rfl
  | succ k ih =>
    rw [List.replicate_succ]
    unfold activeCount at ih ⊢
    rw [List.countP_cons]
    simp [ih]

theorem effective_getD_of_truthy {u : Option String} (n : String) (h : pyTruthy u = true) :
    (effective_remote_url u n).getD "" = u.getD "" ++ n := by
  unfold effective_remote_url
  rw [h, if_pos rfl]
  rfl

theorem mem_remote_block {env : Env} {self : ProjectInitializer}
    {repo_name repo_path : String} {c : Cmd}
    (h : c ∈ remote_block env self repo_name repo_path) :
    (self.remote_operation = some "add" ∧ pyTruthy self.remote_name = true ∧
      pyTruthy self.remote_url = true ∧
      c = remoteAddCmd repo_path (self.remote_name.getD "") (self.remote_url.getD "" ++ repo_name))
    ∨ (self.remote_operation = some "update" ∧ pyTruthy self.remote_name = true ∧
      pyTruthy self.remote_url = true ∧
      c = remoteSetUrlCmd repo_path (self.remote_name.getD "")
        (self.remote_url.getD "" ++ repo_name))
    ∨ (self.remote_operation = some "delete" ∧ pyTruthy self.remote_name = true ∧
      c = remoteRemoveCmd repo_path (self.remote_name.getD "")) := by
  unfold remote_block at h
  by_cases h0 : (pyTruthy self.remote_operation && !(self.excluded_repos.contains repo_name)) = true
  swap
  · rw [if_neg h0] at h
    cases h
  rw [if_pos h0] at h
  by_cases ha : (self.remote_operation == some "add") = true
  · rw [if_pos ha] at h
    have hop : self.remote_operation = some "add" := eq_of_beq ha
    by_cases hv : (pyTruthy self.remote_name &&
        pyTruthy (effective_remote_url self.remote_url repo_name)) = true
    · rw [if_pos hv] at h
      rw [add_remote_trace] at h
      rw [Bool.and_eq_true] at hv
      have hn := hv
      have hu : pyTruthy self.remote_url = true := by
        rw [← pyTruthy_effective self.remote_url repo_name]
        exact hn.2
      refine Or.inl ⟨hop, hn.1, hu, ?_⟩
      simp at h
      rw [h, effective_getD_of_truthy _ hu]
    · rw [if_neg hv] at h
      cases h
  · rw [if_neg ha] at h
    by_cases hb : (self.remote_operation == some "update") = true
    · rw [if_pos hb] at h
      have hop : self.remote_operation = some "update" := eq_of_beq hb
      by_cases hv : (pyTruthy self.remote_name &&
          pyTruthy (effective_remote_url self.remote_url repo_name)) = true
      · rw [if_pos hv] at h
        rw [update_remote_trace] at h
        rw [Bool.and_eq_true] at hv
        have hn := hv
        have hu : pyTruthy self.remote_url = true := by
          rw [← pyTruthy_effective self.remote_url repo_name]
          exact hn.2
        refine Or.inr (Or.inl ⟨hop, hn.1, hu, ?_⟩)
        simp at h
        rw [h, effective_getD_of_truthy _ hu]
      · rw [if_neg hv] at h
        cases h
    · rw [if_neg hb] at h
      by_cases hd : (self.remote_operation == some "delete") = true
      · rw [if_pos hd] at h
        have hop : self.remote_operation = some "delete" := eq_of_beq hd
        by_cases hv : pyTruthy self.remote_name = true
        · rw [if_pos hv] at h
          rw [delete_remote_trace] at h
          simp at h
          exact Or.inr (Or.inr ⟨hop, hv, h⟩)
        · rw [if_neg hv] at h
          cases h
      · rw [if_neg hd] at h
        cases h

theorem sync_block_no_mutation_no_commit {env : Env} {self : ProjectInitializer}
    {repo_name repo_path expected_remote target_branch : String} {c : Cmd}
    (h : c ∈ sync_block env self repo_name repo_path expected_remote target_branch) :
    isRemoteMutationCmd c = false ∧ isCommitCmd c = false := by
  rcases mem_sync_block h with h1 | h1 | h1 | h1 | h1 | ⟨b, h1⟩ | h1 <;> subst h1 <;>
    exact ⟨by simp, by simp⟩

theorem sync_block_any_mutation {env : Env} {self : ProjectInitializer}
    {repo_name repo_path expected_remote target_branch : String} :
    (sync_block env self repo_name repo_path expected_remote target_branch).any
      isRemoteMutationCmd = false := by
  rw [List.any_eq_false]
  intro c hc
  rw [(sync_block_no_mutation_no_commit hc).1]
  exact Bool.false_ne_true

theorem commit_block_any_mutation {env : Env} {self : ProjectInitializer}
    {repo_name repo_path : String} :
    (commit_block env self repo_name repo_path).any isRemoteMutationCmd = false := by
  rw [List.any_eq_false]
  intro c hc
  rcases mem_commit_block hc with h1 | ⟨m, h1⟩ <;> subst h1 <;> simp

/-- Claim C9: for every invocation of `clone_repository`, `update_repository`,
`commit_changes` or `add_remote`, the boolean result equals "every attempted
subprocess spawn completed": it is `True` regardless of the exit status of the
git command and `False` exactly when a spawn/await raised. -/
theorem claim_C9_fail_soft_boolean (env : Env) (org n p p2 p3 p4 m rn ru : String) :
    (ProjectInitializer.clone_repository env org n p).2 =
      (ProjectInitializer.clone_repository env org n p).1.all (fun c => (env.exec c).ok)
    ∧ (ProjectInitializer.update_repository env p2).2 =
      (ProjectInitializer.update_repository env p2).1.all (fun c => (env.exec c).ok)
    ∧ (ProjectInitializer.commit_changes env p3 m).2 =
      (ProjectInitializer.commit_changes env p3 m).1.all (fun c => (env.exec c).ok)
    ∧ (ProjectInitializer.add_remote env p4 rn ru).2 =
      (ProjectInitializer.add_remote env p4 rn ru).1.all (fun c => (env.exec c).ok) := by
  refine ⟨?_, ?_, ?_, ?_⟩
  · unfold ProjectInitializer.clone_repository
    cases hc : env.exec (cloneCmd org n p) <;> simp [hc, SpawnResult.ok]
  · unfold ProjectInitializer.update_repository
    cases hf : env.exec (fetchCmd p2) with
    | raised => simp [hf, SpawnResult.ok]
    | ran a s e =>
      dsimp only
      cases hb : env.exec (revParseCmd p2) with
      | raised => simp [hf, hb, SpawnResult.ok]
      | ran a2 s2 e2 =>
        dsimp only
        cases hp : env.exec (pullCmd p2 (pyStrip s2)) <;> simp [hf, hb, hp, SpawnResult.ok]
  · unfold ProjectInitializer.commit_changes
    cases ha : env.exec (addAllCmd p3) with
    | raised => simp [ha, SpawnResult.ok]
    | ran a s e =>
      dsimp only
      cases hm : env.exec (commitCmd p3 m) <;> simp [ha, hm, SpawnResult.ok]
  · unfold ProjectInitializer.add_remote
    cases hr : env.exec (remoteAddCmd p4 rn ru) <;> simp [hr, SpawnResult.ok]

/-- Claim C4: `checkout_branch` first attempts `git checkout <branch>`; only
when that attempt fails does it attempt `git checkout -b <branch>
origin/main`; it returns `None` exactly when both attempts fail, and in every
other case it returns the branch name. -/
theorem claim_C4_checkout_branch_fallback (env : Env) (p b : String) :
    ((ProjectInitializer.checkout_branch env p b).2 = none ↔
      env.exec (checkoutCmd p b) = SpawnResult.raised ∧
      env.exec (checkoutCreateCmd p b) = SpawnResult.raised)
    ∧ (env.exec (checkoutCmd p b) ≠ SpawnResult.raised →
      ProjectInitializer.checkout_branch env p b = ([checkoutCmd p b], some b))
    ∧ (env.exec (checkoutCmd p b) = SpawnResult.raised →
      (ProjectInitializer.checkout_branch env p b).1 =
        [checkoutCmd p b, checkoutCreateCmd p b])
    ∧ (∀ r, (ProjectInitializer.checkout_branch env p b).2 = some r → r = b) := by
  unfold ProjectInitializer.checkout_branch
  cases h1 : env.exec (checkoutCmd p b) with
  | raised =>
    dsimp only
    cases h2 : env.exec (checkoutCreateCmd p b) with
    | raised => simp [h1, h2]
    | ran a s e => simp [h1, h2]
  | ran a s e => simp [h1]

/-- Claim C3: if `verify_git_ssh` returns `False`, `run` exits with status 1
before attempting any repository reconciliation; if it returns `True`, the
process exit status is 0 no matter what the per-repository subprocess
outcomes are (the environment, hence every step failure, is universally
quantified). -/
theorem claim_C3_verify_gate (env : Env) (self : ProjectInitializer) :
    ((ProjectInitializer.verify_git_ssh env).2 = false →
      ProjectInitializer.run env self = RunResult.aborted 1 ∧
      (ProjectInitializer.run env self).exitStatus = 1 ∧
      (ProjectInitializer.run env self).reconciliationsAttempted = 0)
    ∧ ((ProjectInitializer.verify_git_ssh env).2 = true →
      (ProjectInitializer.run env self).exitStatus = 0) := by
  constructor
  · intro h
    unfold ProjectInitializer.run
    rw [h]
    exact ⟨rfl, rfl, rfl⟩
  · intro h
    unfold ProjectInitializer.run
    rw [h]
    rfl

/-- Claim C10: the constructor deserialises its `repositories` argument with
`json.loads`, so an already-parsed list (the very shape `main` embeds) makes
construction raise a `TypeError` before any repository work, while a JSON
string is parsed and stored. -/
theorem claim_C10_ctor_requires_json_string :
    (∀ (parse : String → Except String (List RepoDescriptor)) (pn ro : String)
        (xs : List RepoDescriptor) (rp : String) (cm : Option String)
        (ex : List String) (rop rn ru : Option String),
      ProjectInitializer.mkInit parse pn ro (PyValue.list xs) rp cm ex rop rn ru =
        Except.error jsonTypeErrorMsg)
    ∧ (∀ (parse : String → Except String (List RepoDescriptor)) (s pn ro : String)
        (rp : String) (cm : Option String) (ex : List String) (rop rn ru : Option String),
      ProjectInitializer.mkInit parse pn ro (PyValue.str s) rp cm ex rop rn ru =
        (parse s).map (fun repos => ⟨pn, ro, repos, rp, cm, ex, rop, rn, ru⟩))
    ∧ (∀ (parse : String → Except String (List RepoDescriptor)) (rp : String),
      ProjectInitializer.mkInit parse "gcp-kubernetes" "HappyPathway"
          (PyValue.list mainRepositories) rp none [] none none none =
        Except.error jsonTypeErrorMsg) := by
  refine ⟨fun parse pn ro xs rp cm ex rop rn ru => rfl, ?_, fun parse rp => rfl⟩
  intro parse s pn ro rp cm ex rop rn ru
  unfold ProjectInitializer.mkInit json_loads
  dsimp only
  cases hps : parse s <;> simp [hps, Except.map]

/-- Claim C2: a repository whose name is in the exclusion list never has any
remote-mutating command (`git remote add`/`set-url`/`remove`) or any commit
command attempted, whatever combination of remote operation and commit
message was requested globally (both are universally quantified in `self`);
the membership check guards each optional step. -/
theorem claim_C2_excluded_never_mutated (env : Env) (self : ProjectInitializer)
    (repo : RepoDescriptor) (h : self.excluded_repos.contains repo.name = true) :
    ∀ c ∈ ProjectInitializer.process_repository env self repo,
      isRemoteMutationCmd c = false ∧ isCommitCmd c = false := by
  intro c hc
  unfold ProjectInitializer.process_repository at hc
  rw [remote_block_of_excluded _ h, commit_block_of_excluded _ h,
    get_current_branch_trace] at hc
  simp only [List.append_nil, List.mem_append, List.mem_singleton] at hc
  rcases hc with hc | hc
  · subst hc
    exact ⟨by simp, by simp⟩
  · exact sync_block_no_mutation_no_commit hc

/-- Claim C5: on a non-excluded repository, `add` and `update` attempt a
remote mutation exactly when both the remote name and the remote URL are
truthy, and `delete` exactly when the remote name is truthy; with a missing
required field no remote-mutating command appears in the trace (the model is
total, so no crash occurs). -/
theorem claim_C5_remote_op_validation (env : Env) (self : ProjectInitializer)
    (repo : RepoDescriptor) (hex : self.excluded_repos.contains repo.name = false) :
    (self.remote_operation = some "add" →
      (ProjectInitializer.process_repository env self repo).any isRemoteMutationCmd =
        (pyTruthy self.remote_name && pyTruthy self.remote_url))
    ∧ (self.remote_operation = some "update" →
      (ProjectInitializer.process_repository env self repo).any isRemoteMutationCmd =
        (pyTruthy self.remote_name && pyTruthy self.remote_url))
    ∧ (self.remote_operation = some "delete" →
      (ProjectInitializer.process_repository env self repo).any isRemoteMutationCmd =
        pyTruthy self.remote_name) := by
  refine ⟨fun hop => ?_, fun hop => ?_, fun hop => ?_⟩
  · unfold ProjectInitializer.process_repository
    rw [get_current_branch_trace, remote_block_add _ hex hop]
    simp only [List.any_append, sync_block_any_mutation, commit_block_any_mutation]
    cases hcond : (pyTruthy self.remote_name && pyTruthy self.remote_url) <;> simp [hcond]
  · unfold ProjectInitializer.process_repository
    rw [get_current_branch_trace, remote_block_update _ hex hop]
    simp only [List.any_append, sync_block_any_mutation, commit_block_any_mutation]
    cases hcond : (pyTruthy self.remote_name && pyTruthy self.remote_url) <;> simp [hcond]
  · unfold ProjectInitializer.process_repository
    rw [get_current_branch_trace, remote_block_delete _ hex hop]
    simp only [List.any_append, sync_block_any_mutation, commit_block_any_mutation]
    cases hcond : pyTruthy self.remote_name <;> simp [hcond]

/-- Claim C6: whenever a `git remote add` or `git remote set-url` command is
attempted during the processing of a repository, the URL argument it carries
is the literal character-for-character concatenation of the configured base
URL with the repository name, with no separator and no other modification. -/
theorem claim_C6_remote_url_literal_concat (env : Env) (self : ProjectInitializer)
    (repo : RepoDescriptor) (u : String) (hu : self.remote_url = some u) (c : Cmd)
    (hc : c ∈ ProjectInitializer.process_repository env self repo)
    (hkind : c.argv.take 3 = ["git", "remote", "add"] ∨
      c.argv.take 3 = ["git", "remote", "set-url"]) :
    ∃ n, c.argv = ["git", "remote", "add", n, u ++ repo.name] ∨
      c.argv = ["git", "remote", "set-url", n, u ++ repo.name] := by
  unfold ProjectInitializer.process_repository at hc
  rw [get_current_branch_trace] at hc
  simp only [List.mem_append, List.mem_singleton] at hc
  rcases hc with ((hc | hc) | hc) | hc
  · subst hc
    simp [revParseCmd] at hkind
  · rcases mem_sync_block hc with h1 | h1 | h1 | h1 | h1 | ⟨b, h1⟩ | h1 <;> subst h1 <;>
      simp [getUrlCmd, checkoutCmd, checkoutCreateCmd, fetchCmd, revParseCmd, pullCmd,
        cloneCmd] at hkind
  · rcases mem_remote_block hc with ⟨_, _, _, h1⟩ | ⟨_, _, _, h1⟩ | ⟨_, _, h1⟩
    · subst h1
      rw [hu]
      exact ⟨self.remote_name.getD "", Or.inl rfl⟩
    · subst h1
      rw [hu]
      exact ⟨self.remote_name.getD "", Or.inr rfl⟩
    · subst h1
      simp [remoteRemoveCmd] at hkind
  · rcases mem_commit_block hc with h1 | ⟨m, h1⟩ <;> subst h1 <;>
      simp [addAllCmd, commitCmd] at hkind

/-- Claim C7: every checkout command attempted while processing a repository
names exactly the branch read from the current working directory of the
invoking process (`get_current_branch env env.cwd`), and the whole processing
trace depends on a descriptor only through its `name` — in particular not on
its per-repository `github_default_branch` — so all repositories of one run
receive the same target branch. -/
theorem claim_C7_target_branch_from_cwd (env : Env) (self : ProjectInitializer) :
    (∀ (repo : RepoDescriptor) (c : Cmd),
      c ∈ ProjectInitializer.process_repository env self repo → isCheckoutCmd c = true →
        (c = checkoutCmd (self.base_dir ++ "/" ++ repo.name)
            (ProjectInitializer.get_current_branch env env.cwd).2 ∨
         c = checkoutCreateCmd (self.base_dir ++ "/" ++ repo.name)
            (ProjectInitializer.get_current_branch env env.cwd).2))
    ∧ (∀ d₁ d₂ : RepoDescriptor, d₁.name = d₂.name →
      ProjectInitializer.process_repository env self d₁ =
        ProjectInitializer.process_repository env self d₂) := by
  constructor
  · intro repo c hc hk
    unfold ProjectInitializer.process_repository at hc
    rw [get_current_branch_trace] at hc
    simp only [List.mem_append, List.mem_singleton] at hc
    rcases hc with ((hc | hc) | hc) | hc
    · subst hc
      simp at hk
    · rcases mem_sync_block hc with h1 | h1 | h1 | h1 | h1 | ⟨b, h1⟩ | h1 <;> subst h1
      · simp at hk
      · exact Or.inl rfl
      · exact Or.inr rfl
      · simp at hk
      · simp at hk
      · simp at hk
      · simp at hk
    · rcases mem_remote_block hc with ⟨_, _, _, h1⟩ | ⟨_, _, _, h1⟩ | ⟨_, _, h1⟩ <;>
        subst h1 <;> simp at hk
    · rcases mem_commit_block hc with h1 | ⟨m, h1⟩ <;> subst h1 <;> simp at hk
  · intro d₁ d₂ h
    unfold ProjectInitializer.process_repository
    rw [h]

/-- Claim C8: with the semaphore capacity 5 created by `run`, every state
reachable by interleaving the admission steps of the reconciliation tasks has
at most 5 tasks holding a slot; a task enters `running` only through an
acquisition guarded by the capacity, and leaves it (releasing the slot) on
success and on failure alike. -/
theorem claim_C8_admission_cap (n : Nat) (ts : List Phase)
    (h : AdmissionReachable maxParallel n ts) : activeCount ts ≤ maxParallel := by
  unfold AdmissionReachable at h
  induction h with
  | refl =>
    rw [activeCount_replicate]
    exact Nat.zero_le _
  | tail hsteps hstep ih =>
    cases hstep with
    | start i h2 hc =>
      unfold activeCount at hc ⊢
      rw [countP_set_of_get _ _ h2]
      have e1 : (Phase.waiting == Phase.running) = false := rfl
      have e2 : (Phase.running == Phase.running) = true := rfl
      rw [e1, e2]
      simp only [if_true]
      simp only [Bool.false_eq_true, if_false]
      omega
    | finish i ok h2 =>
      unfold activeCount at ih ⊢
      rw [countP_set_of_get _ _ h2]
      have e1 : (Phase.done ok == Phase.running) = false := rfl
      have e2 : (Phase.running == Phase.running) = true := rfl
      rw [e1, e2]
      simp only [if_true]
      simp only [Bool.false_eq_true, if_false]
      omega

/-- Claim C1 as stated is false on the code: in a run where the repository
exists locally and the `origin` remote matches the expected URL, the first
checkout attempt strictly precedes the first `git fetch`, so fetch+pull does
not come before checkout.  The conjunction exhibits a concrete environment
satisfying the premises of the claim on which the stated ordering fails. -/
theorem claim_C1_counterexample :
    envMatch.pathExists (selfPlain.base_dir ++ "/" ++ repoR.name) = true ∧
    (ProjectInitializer.check_remote envMatch (selfPlain.base_dir ++ "/" ++ repoR.name)
      ("git@github.com:" ++ selfPlain.repo_org ++ "/" ++ repoR.name ++ ".git")).2 = true ∧
    fetchBeforeCheckout (ProjectInitializer.process_repository envMatch selfPlain repoR)
      = false := by
  decide

/-- Claim C1, amended: for every repository whose local path exists and whose
configured origin remote equals the expected constructed URL, the
reconciliation attempts the checkout/create of the target branch first and
only then performs fetch+pull (both steps are attempted; their order is the
reverse of the one claimed). -/
theorem claim_C1_checkout_before_fetch (env : Env) (self : ProjectInitializer)
    (repo : RepoDescriptor)
    (hex : env.pathExists (self.base_dir ++ "/" ++ repo.name) = true)
    (hmatch : (ProjectInitializer.check_remote env (self.base_dir ++ "/" ++ repo.name)
        ("git@github.com:" ++ self.repo_org ++ "/" ++ repo.name ++ ".git")).2 = true) :
    ∃ i j,
      firstIdx isCheckoutCmd (ProjectInitializer.process_repository env self repo) = some i ∧
      firstIdx isFetchCmd (ProjectInitializer.process_repository env self repo) = some j ∧
      i < j := by
  unfold ProjectInitializer.process_repository sync_block
  rw [if_pos hex, if_pos hmatch, get_current_branch_trace, check_remote_trace]
  obtain ⟨t, ht, hmem⟩ := update_repository_trace_shape env (self.base_dir ++ "/" ++ repo.name)
  rw [ht]
  rcases checkout_branch_trace_cases env (self.base_dir ++ "/" ++ repo.name)
      (ProjectInitializer.get_current_branch env env.cwd).2 with hco | hco <;> rw [hco]
  · refine ⟨2, 3, ?_, ?_, by omega⟩
    · simp only [List.append_assoc, List.singleton_append, List.cons_append]
      simp [firstIdx_cons_neg, firstIdx_cons_pos]
    · simp only [List.append_assoc, List.singleton_append, List.cons_append]
      simp [firstIdx_cons_neg, firstIdx_cons_pos]
  · refine ⟨2, 4, ?_, ?_, by omega⟩
    · simp only [List.append_assoc, List.singleton_append, List.cons_append]
      simp [firstIdx_cons_neg, firstIdx_cons_pos]
    · simp only [List.append_assoc, List.singleton_append, List.cons_append]
      simp [firstIdx_cons_neg, firstIdx_cons_pos]

/-- Witness for the amended claim C1 at a concrete matching environment. -/
theorem claim_C1_witness :
    ∃ i j,
      firstIdx isCheckoutCmd (ProjectInitializer.process_repository envMatch selfPlain repoR)
        = some i ∧
      firstIdx isFetchCmd (ProjectInitializer.process_repository envMatch selfPlain repoR)
        = some j ∧
      i < j :=
  claim_C1_checkout_before_fetch envMatch selfPlain repoR (by decide) (by decide)

/-- Witness for claim C2: with `r` excluded and both a commit and an `add`
requested, the head command of the trace is neither a remote mutation nor a
commit. -/
theorem claim_C2_witness :
    isRemoteMutationCmd (revParseCmd "/cw") = false ∧
    isCommitCmd (revParseCmd "/cw") = false :=
  claim_C2_excluded_never_mutated envMatch selfExcluded repoR (by decide)
    (revParseCmd "/cw") (by decide)

/-- Witness for claim C3: a failed SSH probe yields zero reconciliations, a
successful one exit status 0. -/
theorem claim_C3_witness :
    (ProjectInitializer.run envVerifyFail selfPlain).reconciliationsAttempted = 0 ∧
    (ProjectInitializer.run envMatch selfPlain).exitStatus = 0 :=
  ⟨((claim_C3_verify_gate envVerifyFail selfPlain).1 (by decide)).2.2,
   (claim_C3_verify_gate envMatch selfPlain).2 (by decide)⟩

/-- Witness for claim C4: when the first checkout spawn raises, both attempts
appear in the trace. -/
theorem claim_C4_witness :
    (ProjectInitializer.checkout_branch envCheckoutRaises "/p" "b").1 =
      [checkoutCmd "/p" "b", checkoutCreateCmd "/p" "b"] :=
  (claim_C4_checkout_branch_fallback envCheckoutRaises "/p" "b").2.2.1 (by decide)

/-- Witness for claim C5: an `add` request with a remote name but no URL
attempts no remote mutation. -/
theorem claim_C5_witness :
    (ProjectInitializer.process_repository envMatch selfAddNoUrl repoR).any
      isRemoteMutationCmd =
      (pyTruthy selfAddNoUrl.remote_name && pyTruthy selfAddNoUrl.remote_url) :=
  (claim_C5_remote_op_validation envMatch selfAddNoUrl repoR (by decide)).1 rfl

/-- Witness for claim C6: the attempted `git remote add` carries the literal
concatenation of the base URL and the repository name. -/
theorem claim_C6_witness :
    ∃ n, (remoteAddCmd "/w/r" "nm" "base/r").argv =
        ["git", "remote", "add", n, "base/" ++ repoR.name] ∨
      (remoteAddCmd "/w/r" "nm" "base/r").argv =
        ["git", "remote", "set-url", n, "base/" ++ repoR.name] :=
  claim_C6_remote_url_literal_concat envMatch selfAddFull repoR "base/" rfl
    (remoteAddCmd "/w/r" "nm" "base/r") (by decide) (by decide)

/-- Witness for claim C7: the checkout command of the concrete run names the
branch of the invoking working directory. -/
theorem claim_C7_witness :
    checkoutCmd "/w/r" "main" =
      checkoutCmd (selfPlain.base_dir ++ "/" ++ repoR.name)
        (ProjectInitializer.get_current_branch envMatch envMatch.cwd).2 ∨
    checkoutCmd "/w/r" "main" =
      checkoutCreateCmd (selfPlain.base_dir ++ "/" ++ repoR.name)
        (ProjectInitializer.get_current_branch envMatch envMatch.cwd).2 :=
  (claim_C7_target_branch_from_cwd envMatch selfPlain).1 repoR
    (checkoutCmd "/w/r" "main") (by decide) (by decide)

/-- Witness for claim C8: the initial state of three submitted tasks is
reachable and respects the cap. -/
theorem claim_C8_witness : activeCount (List.replicate 3 Phase.waiting) ≤ maxParallel :=
  claim_C8_admission_cap 3 (List.replicate 3 Phase.waiting)
    (by unfold AdmissionReachable; exact Relation.ReflTransGen.refl)
